import Mathlib

/-!
Shallow embedding of the benchmark execution and metrics-extraction engine
of this repository: the ELKI PCA benchmark (src/methods/elki/pca.py) and the
mlpack GMM benchmark (src/methods/mlpack/gmm.py).

Modelling conventions:
* Python floats are modelled as rationals (the values involved are exact
  decimal literals and integer divisions by 1000).
* Captured process output (a Python byte string, decoded for PCA) is
  modelled as a list of characters.
* A Python dict of benchmark options is modelled as an association list;
  dict.pop removes every pair with the given key (a dict has unique keys).
* A raised Python exception that escapes a function is modelled as
  Except.error carrying the exception message; a function that cannot raise
  returns its value directly.
* The external child process is modelled by an oracle (ProcBehavior) that
  records whether the executable can be launched, how long it runs, its exit
  status, and the combined stdout/stderr bytes it emits.
-/

/-- Strip leading and trailing whitespace, as Python's float() does before
parsing a numeric literal. -/
def stripWs (l : List Char) : List Char :=
  ((l.dropWhile Char.isWhitespace).reverse.dropWhile Char.isWhitespace).reverse

/-- Value of a list of decimal digit characters, most significant first. -/
def digitsToNat (l : List Char) : Nat :=
  l.foldl (fun a c => 10 * a + (c.toNat - 48)) 0

/-- Parse an unsigned decimal literal: digits, optionally followed by a dot
and further digits, with at least one digit present.  This is the fragment
of Python's float() grammar exercised by the repository (no exponents,
underscores, inf or nan appear in the parsed timer fields). -/
def parseDec (l : List Char) : Option ℚ :=
  let ip := l.takeWhile Char.isDigit
  let rest := l.dropWhile Char.isDigit
  if rest = [] then
    if ip = [] then none else some ((digitsToNat ip : ℚ))
  else if rest.head? = some '.' ∧ rest.tail.all Char.isDigit = true ∧
      ¬(ip = [] ∧ rest.tail = []) then
    some ((digitsToNat ip : ℚ) + (digitsToNat rest.tail : ℚ) / (10 : ℚ) ^ rest.tail.length)
  else
    none

/-- Parse an optional leading sign followed by a decimal literal. -/
def parseSigned (t : List Char) : Option ℚ :=
  match t with
  | [] => parseDec []
  | c :: r =>
    if c = '-' then (parseDec r).map Neg.neg
    else if c = '+' then parseDec r
    else parseDec (c :: r)

/-- Model of Python's float() on a string: surrounding whitespace is
stripped, then an optionally signed decimal literal is parsed; none models
the ValueError raised on any other input. -/
def pyFloat? (l : List Char) : Option ℚ :=
  parseSigned (stripWs l)

/-- Model of str.replace for single characters. -/
def replaceChar (old new : Char) (l : List Char) : List Char :=
  l.map (fun c => if c = old then new else c)

/-- Outcome classes of subprocess.check_output, as caught by the sources:
subprocess.TimeoutExpired is caught first, every other exception
(CalledProcessError on nonzero exit, OSError on launch failure) second. -/
inductive RunErr
  | timeoutExpired
  | calledProcessError
  | osError
deriving DecidableEq

/-- Oracle describing one external child process: whether the executable
can be launched at all, its running time in seconds, its exit status, and
the combined stdout/stderr buffer it emits. -/
structure ProcBehavior where
  launches : Bool
  duration : ℚ
  exitcode : Int
  output : List Char
deriving DecidableEq

/-- Model of subprocess.check_output(cmd, stderr=STDOUT, shell=False,
timeout=t) for a numeric timeout t, which is how every call site in the
repository invokes it (self.timeout is always a number, never None):
a launch failure raises OSError from Popen before any waiting; otherwise
the call waits at most t seconds and raises TimeoutExpired when the child
runs longer (a timeout of 0 is a zero-second window, not an unbounded one);
otherwise a nonzero exit status raises CalledProcessError; otherwise the
captured output is returned unfiltered. -/
def check_output (p : ProcBehavior) (timeout : ℚ) : Except RunErr (List Char) :=
  if p.launches = false then Except.error RunErr.osError
  else if timeout < p.duration then Except.error RunErr.timeoutExpired
  else if p.exitcode ≠ 0 then Except.error RunErr.calledProcessError
  else Except.ok p.output

/-- Model of subprocess.check_output without a timeout argument (used by
the GMM construction-time description probe): no timeout window exists. -/
def check_output_noTimeout (p : ProcBehavior) : Except RunErr (List Char) :=
  if p.launches = false then Except.error RunErr.osError
  else if p.exitcode ≠ 0 then Except.error RunErr.calledProcessError
  else Except.ok p.output

/-- Remove every pair with the given key, modelling dict.pop on a dict
whose keys are unique. -/
def popAll (k : String) (l : List (String × String)) : List (String × String) :=
  l.filter (fun p => !(p.1 == k))

/-- First value stored under the given key, modelling dict lookup. -/
def lookupOpt (k : String) (l : List (String × String)) : Option String :=
  (l.find? (fun p => p.1 == k)).map (fun p => p.2)

namespace PCA

/-- PCA.process_options from src/methods/elki/pca.py: translate the option
dict into argument tokens, consuming the recognized keys whiten and
new_dimensionality; if any keys remain the function logs
"Unknown parameters: ..." and raises Exception("unknown parameters").
The result pairs the returned value (or the raised exception message) with
the final state of the mutated options dict. -/
def process_options (options : List (String × String)) :
    Except String (List String) × List (String × String) :=
  let filterTokens : List String :=
    if options.any (fun p => p.1 == "whiten") then
      ["-dbc.filter", "normalization.columnwise.AttributeWiseVarianceNormalization,transform.GlobalPrincipalComponentAnalysisTransform"]
    else
      ["-dbc.filter", "transform.GlobalPrincipalComponentAnalysisTransform"]
  let o1 := popAll "whiten" options
  let ndTokens : List String :=
    match lookupOpt "new_dimensionality" o1 with
    | some v => ["-globalpca.filter", "FirstNEigenPairFilter", "-pca.filter.n", v]
    | none => []
  let o2 := popAll "new_dimensionality" o1
  if o2 = [] then (Except.ok (filterTokens ++ ndTokens), o2)
  else (Except.error "unknown parameters", o2)

/-- The regex fragment \s*(?P<total_time>\d+)\s*ms of PCA.parseTimer,
applied to the text following ".load:": skip whitespace, capture a maximal
nonempty digit run, skip whitespace, and require the literal "ms".
Returns the captured total_time group. -/
def afterLoad (l : List Char) : Option (List Char) :=
  let l1 := l.dropWhile Char.isWhitespace
  let ds := l1.takeWhile Char.isDigit
  let rest2 := (l1.dropWhile Char.isDigit).dropWhile Char.isWhitespace
  if ds = [] then none
  else if ("ms".toList).isPrefixOf rest2 then some ds else none

/-- One backtracking attempt of [^\s]*\.load: — after dropping k characters
of the non-whitespace run, the literal ".load:" must follow, and then the
timer field. -/
def checkLoad (rest : List Char) (k : Nat) : Option (List Char) :=
  if (".load:".toList).isPrefixOf (rest.drop k) then afterLoad (rest.drop (k + 6))
  else none

/-- Backtracking of the greedy [^\s]* in PCA's pattern: try the longest
non-whitespace run first, shrinking towards the empty run. -/
def tryW (rest : List Char) : Nat → Option (List Char)
  | 0 => checkLoad rest 0
  | k + 1 =>
    match checkLoad rest (k + 1) with
    | some g => some g
    | none => tryW rest k

/-- Attempt to match datasource[^\s]*\.load:\s*(\d+)\s*ms at the head of
the text. -/
def matchDatasourceAt (l : List Char) : Option (List Char) :=
  if ("datasource".toList).isPrefixOf l then
    tryW (l.drop 10) (((l.drop 10).takeWhile (fun c => !c.isWhitespace)).length)
  else none

/-- Model of pattern.match for PCA's compiled pattern
.*?datasource[^\s]*\.load:\s*(?P<total_time>\d+)\s*ms.*? under
re.MULTILINE | re.DOTALL: the non-greedy leading .*? scans positions left
to right, and the trailing .*? imposes no constraint.  Returns the
total_time capture group of the leftmost match, none when nothing
matches. -/
def searchLoad : List Char → Option (List Char)
  | [] => none
  | c :: cs =>
    match matchDatasourceAt (c :: cs) with
    | some g => some g
    | none => searchLoad cs

/-- PCA.parseTimer from src/methods/elki/pca.py: on no match, log and
return -1 (modelled as Except.ok none); on a match, if the captured group
contains exactly one '.' return float(group)/1000, otherwise replace ','
with '.' and return float(group)/1000; a float() failure would raise
ValueError (Except.error). -/
def parseTimer (data : List Char) : Except String (Option ℚ) :=
  match searchLoad data with
  | none => Except.ok none
  | some g =>
    if g.count '.' = 1 then
      match pyFloat? g with
      | none => Except.error "ValueError"
      | some v => Except.ok (some (v / 1000))
    else
      match pyFloat? (replaceChar ',' '.' g) with
      | none => Except.error "ValueError"
      | some v => Except.ok (some (v / 1000))

end PCA

deriving instance DecidableEq for Except

/-- Result of a PCA.RunMetrics call: a sentinel integer or a metrics dict
mapping metric names to numeric values. -/
inductive MetricsResult
  | sentinel : Int → MetricsResult
  | metrics : List (String × ℚ) → MetricsResult
deriving DecidableEq

/-- Observable outcome of one PCA.RunMetrics call: the command argument
vector that was built (none when command construction raised before
producing one), the returned value or escaped exception, and whether the
child process was actually invoked. -/
structure PCARun where
  cmd : Option (List String)
  result : Except String MetricsResult
  procInvoked : Bool
deriving DecidableEq

namespace PCA

/-- PCA.RunMetrics from src/methods/elki/pca.py: build the command (the
call to process_options happens while constructing cmd, before the try
block, so its exception escapes RunMetrics); run the child under
self.timeout, catching TimeoutExpired as -2 and any other exception as -1;
then parse the timer and return a metrics dict holding Runtime when the
parse matched, and the still-empty dict when it did not. -/
def RunMetrics (path dataset : String) (timeout : ℚ)
    (options : List (String × String)) (proc : ProcBehavior) : PCARun :=
  match (process_options options).1 with
  | Except.error e => ⟨none, Except.error e, false⟩
  | Except.ok popts =>
    let cmd := ["java", "-jar", path ++ "elki.jar", "cli", "-time", "-dbc.in",
      dataset, "-algorithm", "NullAlgorithm", "-resulthandler",
      "DiscardResultHandler"] ++ popts
    match check_output proc timeout with
    | Except.error RunErr.timeoutExpired =>
      ⟨some cmd, Except.ok (MetricsResult.sentinel (-2)), true⟩
    | Except.error _ =>
      ⟨some cmd, Except.ok (MetricsResult.sentinel (-1)), true⟩
    | Except.ok s =>
      match parseTimer s with
      | Except.error e => ⟨some cmd, Except.error e, true⟩
      | Except.ok none => ⟨some cmd, Except.ok (MetricsResult.metrics []), true⟩
      | Except.ok (some v) =>
        ⟨some cmd, Except.ok (MetricsResult.metrics [("Runtime", v)]), true⟩

end PCA

/-- Value produced by GMM.parseTimer: the int -1 on a failed match, or the
one-field namedtuple timer(em). -/
inductive TimerVal
  | errCode
  | timerRec : ℚ → TimerVal
deriving DecidableEq

/-- Python truthiness of a GMM.parseTimer result, as tested by
"if not timer" in GMM.RunTiming: bool(-1) is True and a nonempty namedtuple
is always True, so both possible values are truthy and the "return -1"
branch guarded by "if not timer" is unreachable. -/
def timerTruthy : TimerVal → Bool
  | TimerVal.errCode => true
  | TimerVal.timerRec _ => true

/-- Result of a GMM.RunTiming call: a sentinel integer or the elapsed
time in seconds. -/
inductive GMMResult
  | sentinel : Int → GMMResult
  | time : ℚ → GMMResult
deriving DecidableEq

namespace GMM

/-- The capture (?P<em>.*?)s of GMM's pattern: the shortest run of
characters before a literal 's'; none when no 's' follows. -/
def takeUntilS : List Char → Option (List Char)
  | [] => none
  | c :: cs => if c = 's' then some [] else (takeUntilS cs).map (fun g => c :: g)

/-- Model of pattern.match for GMM's compiled pattern
.*?em: (?P<em>.*?)s.*? under re.VERBOSE | re.MULTILINE | re.DOTALL
(re.VERBOSE discards the whitespace inside the pattern, leaving
.*?em:(?P<em>.*?)s.*?): the leading non-greedy .*? finds the leftmost
occurrence of "em:", and the non-greedy capture extends to the first
following 's'. -/
def searchEm : List Char → Option (List Char)
  | [] => none
  | c :: cs =>
    if ("em:".toList).isPrefixOf (c :: cs) then takeUntilS ((c :: cs).drop 3)
    else searchEm cs

/-- GMM.parseTimer from src/methods/mlpack/gmm.py: on no match, log and
return -1; on a match, return timer(float(group)); float() raises
ValueError on a group that is not a decimal literal, and python applies
no comma normalization or unit conversion here. -/
def parseTimer (data : List Char) : Except String TimerVal :=
  match searchEm data with
  | none => Except.ok TimerVal.errCode
  | some g =>
    match pyFloat? g with
    | none => Except.error "ValueError"
    | some v => Except.ok (TimerVal.timerRec v)

/-- GMM.GetTime from src/methods/mlpack/gmm.py: timer.em — attribute
access on the int -1 raises AttributeError. -/
def GetTime : TimerVal → Except String ℚ
  | TimerVal.errCode => Except.error "AttributeError"
  | TimerVal.timerRec v => Except.ok v

/-- GMM.RunTiming from src/methods/mlpack/gmm.py: run the child under
self.timeout (TimeoutExpired gives -2, any other execution failure -1),
then parse; the "if not timer" guard is a truthiness test, and since both
parseTimer results are truthy the sentinel branch is dead and GetTime is
applied to whatever parseTimer returned.  The command string
self.path + "gmm -i " + dataset + " -v " + options passed through
shlex.split is abstracted into the process oracle. -/
def RunTiming (timeout : ℚ) (proc : ProcBehavior) : Except String GMMResult :=
  match check_output proc timeout with
  | Except.error RunErr.timeoutExpired => Except.ok (GMMResult.sentinel (-2))
  | Except.error _ => Except.ok (GMMResult.sentinel (-1))
  | Except.ok s =>
    match parseTimer s with
    | Except.error e => Except.error e
    | Except.ok timer =>
      if timerTruthy timer = false then Except.ok (GMMResult.sentinel (-1))
      else
        match GetTime timer with
        | Except.error e => Except.error e
        | Except.ok v => Except.ok (GMMResult.time v)

/-- Search for the description in the probe output, modelling
pattern.match for (.*?)Required.*?options: under re.VERBOSE | re.MULTILINE
| re.DOTALL: group(1) is the text before the leftmost "Required" that has
"options:" somewhere after it. -/
def containsSub (needle : List Char) : List Char → Bool
  | [] => needle.isPrefixOf []
  | c :: cs => needle.isPrefixOf (c :: cs) || containsSub needle cs

/-- Accumulating scan for searchDescr: acc holds the reversed prefix seen
so far. -/
def searchDescrAux : List Char → List Char → Option (List Char)
  | _, [] => none
  | acc, c :: cs =>
    if ("Required".toList).isPrefixOf (c :: cs) &&
        containsSub ("options:".toList) ((c :: cs).drop 8) then
      some acc.reverse
    else searchDescrAux (c :: acc) cs

/-- The group(1) capture of GMM's description pattern, none on no match. -/
def searchDescr (l : List Char) : Option (List Char) :=
  searchDescrAux [] l

/-- The description-probing part of GMM.__init__ from
src/methods/mlpack/gmm.py: run self.path + "gmm -h" (no timeout); if the
probe raises, only Log.Fatal runs and self.description is never assigned
(modelled as none); otherwise a failed description match logs a warning
and assigns the empty string, and a successful match assigns group(1).
Construction completes in every case. -/
def initDescription (probe : ProcBehavior) : Option (List Char) :=
  match check_output_noTimeout probe with
  | Except.error _ => none
  | Except.ok s =>
    match searchDescr s with
    | none => some []
    | some d => some d

end GMM

/-! ### Helper lemmas -/

theorem digit_not_ws (c : Char) (h : c.isDigit = true) : c.isWhitespace = false := by
  rcases hw : c.isWhitespace with _ | _
  · rfl
  · exfalso
    simp only [Char.isWhitespace, Bool.or_eq_true, decide_eq_true_eq] at hw
    rcases hw with ((h1 | h1) | h1) | h1 <;> subst h1 <;> exact absurd h (by decide)

theorem digit_ne_of_not_digit (c d : Char) (h : c.isDigit = true)
    (hd : d.isDigit = false) : c ≠ d := by
  intro e
  rw [e, hd] at h
  exact Bool.noConfusion h

theorem takeWhile_all (p : Char → Bool) (l : List Char) (h : l.all p = true) :
    l.takeWhile p = l := by
  induction l with
  | nil => rfl
  | cons c cs ih =>
    simp only [List.all_cons, Bool.and_eq_true] at h
    rw [List.takeWhile_cons, if_pos h.1, ih h.2]

theorem dropWhile_all (p : Char → Bool) (l : List Char) (h : l.all p = true) :
    l.dropWhile p = [] := by
  induction l with
  | nil => rfl
  | cons c cs ih =>
    simp only [List.all_cons, Bool.and_eq_true] at h
    rw [List.dropWhile_cons, if_pos h.1, ih h.2]

theorem dropWhile_ws_digits (l : List Char) (h : l.all Char.isDigit = true) :
    l.dropWhile Char.isWhitespace = l := by
  cases l with
  | nil => rfl
  | cons c cs =>
    simp only [List.all_cons, Bool.and_eq_true] at h
    rw [List.dropWhile_cons, digit_not_ws c h.1]
    simp

theorem stripWs_digits (l : List Char) (h : l.all Char.isDigit = true) :
    stripWs l = l := by
  unfold stripWs
  rw [dropWhile_ws_digits l h,
    dropWhile_ws_digits l.reverse (by rw [List.all_reverse]; exact h),
    List.reverse_reverse]

theorem parseDec_digits (l : List Char) (h1 : l ≠ [])
    (h2 : l.all Char.isDigit = true) : parseDec l = some ((digitsToNat l : ℚ)) := by
  unfold parseDec
  rw [takeWhile_all Char.isDigit l h2, dropWhile_all Char.isDigit l h2]
  simp [h1]

theorem pyFloat_digits (l : List Char) (h1 : l ≠ [])
    (h2 : l.all Char.isDigit = true) : pyFloat? l = some ((digitsToNat l : ℚ)) := by
  unfold pyFloat?
  rw [stripWs_digits l h2]
  cases l with
  | nil => exact absurd rfl h1
  | cons c cs =>
    have hc : c.isDigit = true := by
      simp only [List.all_cons, Bool.and_eq_true] at h2
      exact h2.1
    have e : parseSigned (c :: cs) =
        if c = '-' then (parseDec cs).map Neg.neg
        else if c = '+' then parseDec cs
        else parseDec (c :: cs) := rfl
    rw [e, if_neg (digit_ne_of_not_digit c '-' hc (by decide)),
      if_neg (digit_ne_of_not_digit c '+' hc (by decide))]
    exact parseDec_digits (c :: cs) h1 h2

theorem count_dot_digits (l : List Char) (h : l.all Char.isDigit = true) :
    l.count '.' = 0 := by
  rw [List.count_eq_zero]
  intro hm
  have := List.all_eq_true.mp h _ hm
  simp [Char.isDigit] at this

theorem replaceChar_comma_digits (l : List Char) (h : l.all Char.isDigit = true) :
    replaceChar ',' '.' l = l := by
  induction l with
  | nil => rfl
  | cons c cs ih =>
    simp only [List.all_cons, Bool.and_eq_true] at h
    unfold replaceChar at ih ⊢
    rw [List.map_cons, if_neg (digit_ne_of_not_digit c ',' h.1 (by decide)), ih h.2]

namespace PCA

theorem afterLoad_digits (l g : List Char) (h : afterLoad l = some g) :
    g ≠ [] ∧ g.all Char.isDigit = true := by
  simp only [afterLoad] at h
  split_ifs at h with h1 h2
  have hg : (l.dropWhile Char.isWhitespace).takeWhile Char.isDigit = g :=
    Option.some.inj h
  subst hg
  refine ⟨h1, List.all_eq_true.mpr ?_⟩
  intro c hm
  exact List.mem_takeWhile_imp hm

theorem checkLoad_digits (rest : List Char) (k : Nat) (g : List Char)
    (h : checkLoad rest k = some g) : g ≠ [] ∧ g.all Char.isDigit = true := by
  unfold checkLoad at h
  split_ifs at h
  exact afterLoad_digits _ _ h

theorem tryW_digits (rest : List Char) :
    ∀ (k : Nat) (g : List Char), tryW rest k = some g →
      g ≠ [] ∧ g.all Char.isDigit = true := by
  intro k
  induction k with
  | zero => exact fun g h => checkLoad_digits rest 0 g h
  | succ n ih =>
    intro g h
    have h2 : (match checkLoad rest (n + 1) with
        | some g0 => some g0
        | none => tryW rest n) = some g := h
    cases hc : checkLoad rest (n + 1) with
    | some g2 =>
      rw [hc] at h2
      obtain rfl : g2 = g := Option.some.inj h2
      exact checkLoad_digits rest (n + 1) _ hc
    | none =>
      rw [hc] at h2
      exact ih g h2

theorem matchDatasourceAt_digits (l g : List Char)
    (h : matchDatasourceAt l = some g) : g ≠ [] ∧ g.all Char.isDigit = true := by
  unfold matchDatasourceAt at h
  split_ifs at h
  exact tryW_digits _ _ _ h

theorem searchLoad_digits (s : List Char) :
    ∀ g : List Char, searchLoad s = some g →
      g ≠ [] ∧ g.all Char.isDigit = true := by
  induction s with
  | nil => exact fun g h => Option.noConfusion h
  | cons c cs ih =>
    intro g h
    have h2 : (match matchDatasourceAt (c :: cs) with
        | some g0 => some g0
        | none => searchLoad cs) = some g := h
    cases hm : matchDatasourceAt (c :: cs) with
    | some g2 =>
      rw [hm] at h2
      obtain rfl : g2 = g := Option.some.inj h2
      exact matchDatasourceAt_digits _ _ hm
    | none =>
      rw [hm] at h2
      exact ih g h2

/-- PCA.parseTimer can never raise: the captured group is a nonempty digit
run, so the single-dot branch is never taken, the comma replacement is the
identity, and float() succeeds, yielding the captured integer divided by
1000. -/
theorem parseTimer_eq (s : List Char) :
    parseTimer s =
      Except.ok ((searchLoad s).map (fun g => ((digitsToNat g : ℚ) / 1000))) := by
  cases h : searchLoad s with
  | none =>
    have e : parseTimer s = (match searchLoad s with
      | none => Except.ok none
      | some g =>
        if g.count '.' = 1 then
          match pyFloat? g with
          | none => Except.error "ValueError"
          | some v => Except.ok (some (v / 1000))
        else
          match pyFloat? (replaceChar ',' '.' g) with
          | none => Except.error "ValueError"
          | some v => Except.ok (some (v / 1000))) := rfl
    rw [e, h]
    rfl
  | some g =>
    obtain ⟨h1, h2⟩ := searchLoad_digits s g h
    have e : parseTimer s = (match searchLoad s with
      | none => Except.ok none
      | some g =>
        if g.count '.' = 1 then
          match pyFloat? g with
          | none => Except.error "ValueError"
          | some v => Except.ok (some (v / 1000))
        else
          match pyFloat? (replaceChar ',' '.' g) with
          | none => Except.error "ValueError"
          | some v => Except.ok (some (v / 1000))) := rfl
    rw [e, h]
    show (if g.count '.' = 1 then
        match pyFloat? g with
        | none => Except.error "ValueError"
        | some v => Except.ok (some (v / 1000))
      else
        match pyFloat? (replaceChar ',' '.' g) with
        | none => Except.error "ValueError"
        | some v => Except.ok (some (v / 1000))) =
      Except.ok (some ((digitsToNat g : ℚ) / 1000))
    rw [if_neg (by rw [count_dot_digits g h2]; exact Nat.zero_ne_one),
      replaceChar_comma_digits g h2, pyFloat_digits g h1 h2]

end PCA

/-- Full classification of the observable result of PCA.RunMetrics once
command construction has succeeded. -/
theorem pca_run_result_eq (path dataset : String) (t : ℚ)
    (opts : List (String × String)) (proc : ProcBehavior) (a : List String)
    (h : (PCA.process_options opts).1 = Except.ok a) :
    (PCA.RunMetrics path dataset t opts proc).result =
      if proc.launches = false then Except.ok (MetricsResult.sentinel (-1))
      else if t < proc.duration then Except.ok (MetricsResult.sentinel (-2))
      else if proc.exitcode ≠ 0 then Except.ok (MetricsResult.sentinel (-1))
      else
        match PCA.searchLoad proc.output with
        | none => Except.ok (MetricsResult.metrics [])
        | some g =>
          Except.ok (MetricsResult.metrics [("Runtime", (digitsToNat g : ℚ) / 1000)]) := by
  by_cases hl : proc.launches = false
  · simp [PCA.RunMetrics, h, check_output, hl]
  · by_cases ht : t < proc.duration
    · simp [PCA.RunMetrics, h, check_output, hl, ht]
    · by_cases he : proc.exitcode = 0
      · rw [PCA.RunMetrics]
        simp only [h]
        rw [check_output]
        simp only [hl, ht, he, if_false, if_neg, ne_eq, not_true_eq_false]
        simp only [PCA.parseTimer_eq]
        cases hs : PCA.searchLoad proc.output <;>
          simp [hs, hl, ht, he]
      · simp [PCA.RunMetrics, h, check_output, hl, ht, he]

/-- Full classification of the observable result of GMM.RunTiming. -/
theorem gmm_runtiming_eq (t : ℚ) (proc : ProcBehavior) :
    GMM.RunTiming t proc =
      if proc.launches = false then Except.ok (GMMResult.sentinel (-1))
      else if t < proc.duration then Except.ok (GMMResult.sentinel (-2))
      else if proc.exitcode ≠ 0 then Except.ok (GMMResult.sentinel (-1))
      else
        match GMM.searchEm proc.output with
        | none => Except.error "AttributeError"
        | some g =>
          match pyFloat? g with
          | none => Except.error "ValueError"
          | some v => Except.ok (GMMResult.time v) := by
  by_cases hl : proc.launches = false
  · simp [GMM.RunTiming, check_output, hl]
  · by_cases ht : t < proc.duration
    · simp [GMM.RunTiming, check_output, hl, ht]
    · by_cases he : proc.exitcode = 0
      · rw [GMM.RunTiming]
        rw [check_output]
        simp only [hl, ht, he, if_false, ne_eq, not_true_eq_false]
        cases hs : GMM.searchEm proc.output with
        | none => simp [GMM.parseTimer, hs, timerTruthy, GMM.GetTime, hl, ht, he]
        | some g =>
          cases hf : pyFloat? g <;>
            simp [GMM.parseTimer, hs, hf, timerTruthy, GMM.GetTime, hl, ht, he]
      · simp [GMM.RunTiming, check_output, hl, ht, he]

/-! ### Claim theorems -/

/-- C1, counterexample: the claim says an execution-or-parse failure yields
sentinel -1, but when the child succeeds and the timer pattern does not
match, PCA.RunMetrics returns an empty Metrics Map, not a sentinel. -/
theorem c1_parse_failure_yields_empty_map_not_sentinel :
    (PCA.RunMetrics "p" "d" 10 [] ⟨true, 1, 0, ("no timer output".toList)⟩).result =
      Except.ok (MetricsResult.metrics []) ∧
    MetricsResult.metrics [] ≠ MetricsResult.sentinel (-1) := by
  exact ⟨by decide, by decide⟩

/-- C1, amended: given an options map the builder consumes, a Metrics Map
containing the Runtime key is returned iff the child launched, exited
within the timeout with status 0, and the timer pattern matched; when the
child succeeded but the pattern did not match, the result is the empty
Metrics Map (not a sentinel); the map is never partially populated beyond
these two shapes. -/
theorem c1_metrics_iff_success_and_match (path dataset : String) (t : ℚ)
    (opts : List (String × String)) (proc : ProcBehavior) (a : List String)
    (h : (PCA.process_options opts).1 = Except.ok a) :
    ((∃ v, (PCA.RunMetrics path dataset t opts proc).result =
        Except.ok (MetricsResult.metrics [("Runtime", v)])) ↔
      proc.launches = true ∧ proc.duration ≤ t ∧ proc.exitcode = 0 ∧
        (PCA.searchLoad proc.output).isSome = true) ∧
    ((PCA.RunMetrics path dataset t opts proc).result =
        Except.ok (MetricsResult.metrics []) ↔
      proc.launches = true ∧ proc.duration ≤ t ∧ proc.exitcode = 0 ∧
        PCA.searchLoad proc.output = none) := by
  rw [pca_run_result_eq path dataset t opts proc a h]
  by_cases hl : proc.launches = false
  · simp [hl]
  · have hl2 : proc.launches = true := by
      rwa [Bool.not_eq_false] at hl
    by_cases ht : t < proc.duration
    · simp [hl, hl2, ht, not_le.mpr ht]
    · have hle : proc.duration ≤ t := not_lt.mp ht
      by_cases he : proc.exitcode = 0
      · simp only [hl, hl2, ht, hle, he, if_false, ne_eq, not_true_eq_false,
          if_neg, true_and]
        cases hs : PCA.searchLoad proc.output <;> simp [hs]
      · simp [hl, hl2, ht, hle, he]

/-- C1, witness. -/
theorem c1_metrics_iff_success_and_match_witness :
    (PCA.process_options ([] : List (String × String))).1 =
      Except.ok ["-dbc.filter", "transform.GlobalPrincipalComponentAnalysisTransform"] ∧
    (∃ v, (PCA.RunMetrics "p" "d" 10 []
        ⟨true, 1, 0, ("datasource.load: 42 ms".toList)⟩).result =
      Except.ok (MetricsResult.metrics [("Runtime", v)])) :=
  ⟨rfl, (c1_metrics_iff_success_and_match "p" "d" 10 []
      ⟨true, 1, 0, ("datasource.load: 42 ms".toList)⟩ _ rfl).1.mpr (by decide)⟩

/-- C2, counterexample: a command-construction failure (an unrecognized
option) is raised by process_options outside the try block and escapes
PCA.RunMetrics as an exception instead of a logged sentinel return. -/
theorem c2_unknown_option_raises_past_runmetrics :
    (PCA.RunMetrics "p" "d" 10 [("bad_option", "1")] ⟨true, 1, 0, []⟩).result =
      Except.error "unknown parameters" := by decide

/-- C2, amended: once command construction succeeds, PCA.RunMetrics never
lets a fault escape (execution failures and parse no-matches are converted
to returned values); but command-construction failures escape RunMetrics as
raised exceptions, and in GMM a parse no-match leads to GetTime being
applied to the int -1, so an AttributeError escapes RunTiming. -/
theorem c2_containment_and_leaks :
    (∀ (path dataset : String) (t : ℚ) (opts : List (String × String))
        (proc : ProcBehavior) (a : List String),
        (PCA.process_options opts).1 = Except.ok a →
        ∃ r, (PCA.RunMetrics path dataset t opts proc).result = Except.ok r) ∧
    (∀ (t : ℚ) (proc : ProcBehavior),
        proc.launches = true → proc.duration ≤ t → proc.exitcode = 0 →
        GMM.searchEm proc.output = none →
        GMM.RunTiming t proc = Except.error "AttributeError") := by
  constructor
  · intro path dataset t opts proc a h
    rw [pca_run_result_eq path dataset t opts proc a h]
    split_ifs
    · exact ⟨_, rfl⟩
    · exact ⟨_, rfl⟩
    · exact ⟨_, rfl⟩
    · cases hs : PCA.searchLoad proc.output <;> exact ⟨_, rfl⟩
  · intro t proc hl hle he hs
    rw [gmm_runtiming_eq, if_neg (by simp [hl]), if_neg (not_lt.mpr hle),
      if_neg (not_not_intro he), hs]

/-- C2, witness. -/
theorem c2_containment_and_leaks_witness :
    (PCA.process_options ([] : List (String × String))).1 =
      Except.ok ["-dbc.filter", "transform.GlobalPrincipalComponentAnalysisTransform"] ∧
    (∃ r, (PCA.RunMetrics "p" "d" 10 [] ⟨true, 1, 0, []⟩).result = Except.ok r) ∧
    GMM.RunTiming 10 ⟨true, 1, 0, ("abc".toList)⟩ = Except.error "AttributeError" :=
  ⟨rfl, c2_containment_and_leaks.1 "p" "d" 10 [] ⟨true, 1, 0, []⟩ _ rfl,
   c2_containment_and_leaks.2 10 ⟨true, 1, 0, ("abc".toList)⟩ rfl (by decide) rfl rfl⟩

/-- The tail of GMM.RunTiming after a successful execution and a matched
pattern never produces a sentinel: float() either raises or yields a time. -/
theorem gmm_float_tail_not_sentinel (g : List Char) (n : Int) :
    (match pyFloat? g with
      | none => Except.error "ValueError"
      | some v => Except.ok (GMMResult.time v)) ≠
      Except.ok (GMMResult.sentinel n) := by
  cases pyFloat? g <;> simp

/-- C3, counterexample: neither parser matches the example phrase
"total time: ..." — PCA's pattern needs "datasource...load: <digits> ms"
and GMM's needs "em: ...s" — so neither example yields 1.5 seconds: PCA
reports a failed parse (the -1 path, modelled as Except.ok none) and GMM
returns the -1 value. -/
theorem c3_total_time_examples_do_not_parse :
    PCA.parseTimer ("total time: 1500 ms".toList) = Except.ok none ∧
    GMM.parseTimer ("total time: 1,5s".toList) = Except.ok TimerVal.errCode ∧
    (Except.ok none : Except String (Option ℚ)) ≠
      Except.ok (some ((3 : ℚ) / 2)) := by
  exact ⟨by decide, by decide, by decide⟩

/-- C3, amended: PCA's parseTimer divides the captured millisecond count
by 1000, so output containing "datasource.load: 1500 ms" yields 1.5
seconds; the normalization branches (single-dot test, comma replacement)
exist only in PCA, whose capture is digits-only, and GMM applies plain
float conversion with no comma normalization, so "em: 1,5s" raises
ValueError instead of yielding 1.5. -/
theorem c3_normalization_on_matching_output :
    PCA.parseTimer ("datasource.load: 1500 ms".toList) =
      Except.ok (some ((3 : ℚ) / 2)) ∧
    GMM.parseTimer ("em: 1,5s".toList) = Except.error "ValueError" := by
  constructor
  · have e : PCA.parseTimer ("datasource.load: 1500 ms".toList) =
        Except.ok (some ((digitsToNat ("1500".toList) : ℚ) / 1000)) := rfl
    have e2 : digitsToNat ("1500".toList) = 1500 := rfl
    rw [e, e2]
    simp only [Except.ok.injEq, Option.some.injEq]
    norm_num
  · decide

/-- C4: the constructor default timeout 0 is passed directly to
subprocess.check_output, where it is a zero-second window, not "no
timeout": a well-behaved child (launches, runs 1s, exits 0, emits a
parsable timer line) still makes RunMetrics return the timeout sentinel
-2, contradicting the claim that a 0 timeout never fails with a
timeout. -/
theorem c4_zero_timeout_yields_timeout_sentinel :
    (PCA.RunMetrics "p" "d" 0 []
        ⟨true, 1, 0, ("datasource.load: 5 ms".toList)⟩).result =
      Except.ok (MetricsResult.sentinel (-2)) ∧
    Except.ok (MetricsResult.sentinel (-2)) ≠
      (Except.ok (MetricsResult.metrics [("Runtime", (5 : ℚ) / 1000)]) :
        Except String MetricsResult) := by
  exact ⟨by decide, by decide⟩

/-- C5, counterexample: when the construction-time description probe fails
to execute, GMM.__init__ runs only Log.Fatal and never assigns
self.description, so the object is not produced with an empty description
(the attribute is left unset, modelled as none). -/
theorem c5_probe_exec_failure_leaves_description_unset :
    GMM.initDescription ⟨false, 0, 0, []⟩ = none ∧
    (none : Option (List Char)) ≠ some [] := by
  exact ⟨rfl, by decide⟩

/-- C5, amended: construction always completes (non-fatal in every case);
when the probe executes but its output lacks the description pattern, the
description is set to the empty string after a logged warning; when the
probe execution itself fails, construction still completes but the
description attribute is left unset rather than empty. -/
theorem c5_probe_nonfatal_description_cases (probe : ProcBehavior)
    (hl : probe.launches = true) (he : probe.exitcode = 0)
    (hm : GMM.searchDescr probe.output = none) :
    GMM.initDescription probe = some [] ∧
    ∀ q : ProcBehavior, q.launches = false → GMM.initDescription q = none := by
  constructor
  · have hco : check_output_noTimeout probe = Except.ok probe.output := by
      rw [check_output_noTimeout, if_neg (by simp [hl]), if_neg (not_not_intro he)]
    rw [GMM.initDescription, hco]
    simp [hm]
  · intro q hq
    rw [GMM.initDescription, check_output_noTimeout, if_pos hq]

/-- C5, witness. -/
theorem c5_probe_nonfatal_description_cases_witness :
    GMM.searchDescr ("cannot parse this".toList) = none ∧
    GMM.initDescription ⟨true, 0, 0, ("cannot parse this".toList)⟩ = some [] :=
  ⟨by decide, (c5_probe_nonfatal_description_cases
      ⟨true, 0, 0, ("cannot parse this".toList)⟩ rfl rfl (by decide)).1⟩

/-- C6, counterexample: a parse-stage failure inside the GMM timing run
does not short-circuit to a negative sentinel: the AttributeError raised
by GetTime on the int -1 escapes instead. -/
theorem c6_parse_stage_failure_not_sentinel :
    GMM.RunTiming 10 ⟨true, 1, 0, ("wrong format".toList)⟩ =
      Except.error "AttributeError" ∧
    (Except.error "AttributeError" : Except String GMMResult) ≠
      Except.ok (GMMResult.sentinel (-1)) ∧
    (Except.error "AttributeError" : Except String GMMResult) ≠
      Except.ok (GMMResult.sentinel (-2)) := by
  exact ⟨by decide, by decide, by decide⟩

/-- C6, amended: for the launch/execution stage the sentinels are exact
and distinct — given consumed options, RunMetrics (and RunTiming) returns
-2 exactly when the child exceeded the timeout and -1 exactly when any
other launch or execution failure occurred — so a caller can distinguish a
timeout from a crash by the return value alone; parse-stage failures,
however, do not produce sentinels (PCA returns an empty map, GMM raises). -/
theorem c6_sentinels_distinguish (path dataset : String) (t : ℚ)
    (opts : List (String × String)) (proc : ProcBehavior) (a : List String)
    (h : (PCA.process_options opts).1 = Except.ok a) :
    ((PCA.RunMetrics path dataset t opts proc).result =
        Except.ok (MetricsResult.sentinel (-2)) ↔
      proc.launches = true ∧ t < proc.duration) ∧
    ((PCA.RunMetrics path dataset t opts proc).result =
        Except.ok (MetricsResult.sentinel (-1)) ↔
      (proc.launches = false ∨
        (proc.launches = true ∧ proc.duration ≤ t ∧ proc.exitcode ≠ 0))) ∧
    (GMM.RunTiming t proc = Except.ok (GMMResult.sentinel (-2)) ↔
      proc.launches = true ∧ t < proc.duration) ∧
    (GMM.RunTiming t proc = Except.ok (GMMResult.sentinel (-1)) ↔
      (proc.launches = false ∨
        (proc.launches = true ∧ proc.duration ≤ t ∧ proc.exitcode ≠ 0))) := by
  rw [pca_run_result_eq path dataset t opts proc a h, gmm_runtiming_eq t proc]
  by_cases hl : proc.launches = false
  · simp [hl]
  · have hl2 : proc.launches = true := by
      rwa [Bool.not_eq_false] at hl
    by_cases ht : t < proc.duration
    · simp [hl, hl2, ht, not_le.mpr ht]
    · have hle : proc.duration ≤ t := not_lt.mp ht
      by_cases he : proc.exitcode = 0
      · simp only [hl, hl2, ht, hle, he, if_false, ne_eq, not_true_eq_false,
          if_neg, true_and, false_or]
        cases hs : PCA.searchLoad proc.output <;>
          cases hs2 : GMM.searchEm proc.output <;>
            simp [hs, hs2, he, gmm_float_tail_not_sentinel]
      · simp [hl, hl2, ht, hle, he]

/-- C6, witness. -/
theorem c6_sentinels_distinguish_witness :
    (PCA.process_options ([] : List (String × String))).1 =
      Except.ok ["-dbc.filter", "transform.GlobalPrincipalComponentAnalysisTransform"] ∧
    ((PCA.RunMetrics "p" "d" 0 [] ⟨true, 1, 0, []⟩).result =
        Except.ok (MetricsResult.sentinel (-2)) ↔
      true = true ∧ (0 : ℚ) < 1) :=
  ⟨rfl, (c6_sentinels_distinguish "p" "d" 0 [] ⟨true, 1, 0, []⟩ _ rfl).1⟩

/-- C7: every options map holding at least one key other than whiten and
new_dimensionality makes the command builder fail with the
unknown-parameters fault, leaves exactly the unrecognized entries behind
(the keys Log.Fatal reports), produces no Command, and the enclosing
RunMetrics call never invokes the child process. -/
theorem c7_unrecognized_option_rejected (opts : List (String × String))
    (h : opts.any
      (fun p => !(p.1 == "whiten") && !(p.1 == "new_dimensionality")) = true) :
    (PCA.process_options opts).1 = Except.error "unknown parameters" ∧
    (PCA.process_options opts).2 =
      popAll "new_dimensionality" (popAll "whiten" opts) ∧
    (PCA.process_options opts).2 ≠ [] ∧
    ∀ (path dataset : String) (t : ℚ) (proc : ProcBehavior),
      (PCA.RunMetrics path dataset t opts proc).procInvoked = false ∧
      (PCA.RunMetrics path dataset t opts proc).cmd = none ∧
      (PCA.RunMetrics path dataset t opts proc).result =
        Except.error "unknown parameters" := by
  obtain ⟨p, hp, hpred⟩ := List.any_eq_true.mp h
  rw [Bool.and_eq_true, Bool.not_eq_true', Bool.not_eq_true'] at hpred
  have hmem : p ∈ popAll "new_dimensionality" (popAll "whiten" opts) := by
    unfold popAll
    rw [List.mem_filter]
    refine ⟨?_, by simp [hpred.2]⟩
    rw [List.mem_filter]
    exact ⟨hp, by simp [hpred.1]⟩
  have hne : popAll "new_dimensionality" (popAll "whiten" opts) ≠ [] :=
    List.ne_nil_of_mem hmem
  have herr : (PCA.process_options opts).1 = Except.error "unknown parameters" := by
    simp [PCA.process_options, hne]
  refine ⟨herr, ?_, ?_, ?_⟩
  · simp [PCA.process_options, hne]
  · simp [PCA.process_options, hne]
  · intro path dataset t proc
    refine ⟨?_, ?_, ?_⟩ <;> simp [PCA.RunMetrics, herr]

/-- C7, witness. -/
theorem c7_unrecognized_option_rejected_witness :
    (PCA.process_options [("k", "3")]).1 = Except.error "unknown parameters" ∧
    (PCA.RunMetrics "p" "d" 10 [("k", "3")] ⟨true, 1, 0, []⟩).procInvoked = false :=
  ⟨(c7_unrecognized_option_rejected [("k", "3")] (by decide)).1,
   ((c7_unrecognized_option_rejected [("k", "3")] (by decide)).2.2.2
      "p" "d" 10 ⟨true, 1, 0, []⟩).1⟩

/-- C8: every options map whose keys are all recognized (whiten and
new_dimensionality for the PCA builder) is fully consumed — the map is
empty afterwards — and the builder never fails, returning an
argument-token Command. -/
theorem c8_recognized_options_all_consumed (opts : List (String × String))
    (h : ∀ p ∈ opts, p.1 = "whiten" ∨ p.1 = "new_dimensionality") :
    (∃ args : List String, (PCA.process_options opts).1 = Except.ok args) ∧
    (PCA.process_options opts).2 = [] := by
  have hnil : popAll "new_dimensionality" (popAll "whiten" opts) = [] := by
    unfold popAll
    rw [List.filter_eq_nil_iff]
    intro a ha
    rw [List.mem_filter] at ha
    rcases h a ha.1 with h1 | h1
    · exfalso
      have h2 := ha.2
      rw [h1] at h2
      simp at h2
    · rw [h1]
      simp
  constructor
  · cases hres : (PCA.process_options opts).1 with
    | error e =>
      exfalso
      rw [PCA.process_options] at hres
      simp [hnil] at hres
    | ok args => exact ⟨args, rfl⟩
  · simp [PCA.process_options, hnil]

/-- C8, witness. -/
theorem c8_recognized_options_all_consumed_witness :
    (∃ args, (PCA.process_options
        [("whiten", "True"), ("new_dimensionality", "2")]).1 = Except.ok args) ∧
    (PCA.process_options [("whiten", "True"), ("new_dimensionality", "2")]).2 = [] :=
  c8_recognized_options_all_consumed
    [("whiten", "True"), ("new_dimensionality", "2")] (by decide)

/-- C9: a GMM-style benchmark object whose timing entry point (named
RunTiming in src/methods/mlpack/gmm.py, per the claim's cited symbols)
is called with empty options against an executable emitting "em: 0.734s"
returns the elapsed 0.734 seconds through GetTime. -/
theorem c9_gmm_em_timing :
    GMM.RunTiming 240 ⟨true, 1, 0, ("em: 0.734s".toList)⟩ =
      Except.ok (GMMResult.time ((734 : ℚ) / 1000)) := by
  have e : GMM.RunTiming 240 ⟨true, 1, 0, ("em: 0.734s".toList)⟩ =
      Except.ok (GMMResult.time ((digitsToNat ("0".toList) : ℚ) +
        (digitsToNat ("734".toList) : ℚ) / (10 : ℚ) ^ ("734".toList).length)) := rfl
  have e2 : digitsToNat ("0".toList) = 0 := rfl
  have e3 : digitsToNat ("734".toList) = 734 := rfl
  have e4 : ("734".toList).length = 3 := rfl
  rw [e, e2, e3, e4]
  simp only [Except.ok.injEq, GMMResult.time.injEq]
  norm_num

/-- C10: whenever PCA's parseTimer pattern matches, the captured
total_time group is a nonempty run of decimal digits (the pattern captures
only digits), so it contains no dot — the single-dot branch is
unreachable — and the returned total_time is that nonnegative integer
millisecond count divided by 1000. -/
theorem c10_pca_capture_digits_only (s g : List Char)
    (h : PCA.searchLoad s = some g) :
    g ≠ [] ∧ g.all Char.isDigit = true ∧ g.count '.' = 0 ∧
      PCA.parseTimer s = Except.ok (some ((digitsToNat g : ℚ) / 1000)) := by
  obtain ⟨h1, h2⟩ := PCA.searchLoad_digits s g h
  refine ⟨h1, h2, count_dot_digits g h2, ?_⟩
  rw [PCA.parseTimer_eq, h]
  rfl

/-- C10, witness. -/
theorem c10_pca_capture_digits_only_witness :
    PCA.searchLoad ("datasource.load: 1500 ms".toList) = some ("1500".toList) ∧
    ("1500".toList ≠ [] ∧ ("1500".toList).all Char.isDigit = true ∧
      ("1500".toList).count '.' = 0 ∧
      PCA.parseTimer ("datasource.load: 1500 ms".toList) =
        Except.ok (some ((digitsToNat ("1500".toList) : ℚ) / 1000))) :=
  ⟨by decide, c10_pca_capture_digits_only _ _ (by decide)⟩
